import Mathlib

set_option maxRecDepth 40000

/-!
Verification of the user-operation core of the aa-bundler repository.

Shallow embedding conventions:
* `Address` (20 bytes) and `U256` are modelled as `Nat`; where the width
  matters the definitions apply the explicit bounds `2^160` / `2^256`.
* `Bytes` / `Vec<u8>` are modelled as `List Nat`, one entry per byte.
* The ABI tuple encoding produced by the derived `AbiEncode` instance of
  `UserOperation` (ethers `EthAbiCodec`) is embedded as `UserOperation.pack`,
  specialised to the fixed eleven-field shape of the struct; the derived
  `AbiDecode` instance is embedded as `unpack`.
* `keccak256` (ethers `ethers::utils::keccak256`) is embedded as an
  executable Keccak-256 over `Nat` lanes, validated below against the
  repository's own test vectors.
-/

namespace AABundler

/-! ### Byte-string primitives -/

/-- Big-endian byte string of length `k` for the value `n % 256^k`
(the fixed-width scalar encoding used by the ABI codec for `uint256`
and left-padded addresses). -/
def beBytes : Nat → Nat → List Nat
  | 0, _ => []
  | k + 1, n => beBytes k (n / 256) ++ [n % 256]

/-- Read a big-endian byte string back as a number. -/
def bytesToNat (bs : List Nat) : Nat :=
  bs.foldl (fun acc b => acc * 256 + b) 0

/-- Little-endian byte string of length `k` for the value `n % 256^k`
(the lane layout used when a Keccak state is read as bytes). -/
def leBytes : Nat → Nat → List Nat
  | 0, _ => []
  | k + 1, n => n % 256 :: leBytes k (n / 256)

/-- Read a little-endian byte string back as a number. -/
def leToNat (bs : List Nat) : Nat :=
  bs.foldr (fun b acc => acc * 256 + b) 0

/-! ### Keccak-256

Executable embedding of `ethers::utils::keccak256` (Keccak-f[1600] sponge,
rate 136, capacity 512, original 0x01 multi-rate padding, 32-byte output).
The 1600-bit state is packed into a single `Nat`: lane `(x, y)` (64 bits,
stored little-endian in the byte view) occupies bits `[64*(x+5*y), 64*(x+5*y)+64)`.
With this packing, XORing a 136-byte block into lanes 0..16 is XOR with the
little-endian value of the block, and the 32-byte digest is the little-endian
view of the low 256 bits. -/

/-- Mask of a 64-bit lane. -/
def m64 : Nat := 2 ^ 64 - 1

/-- Left-rotation of a 64-bit lane. -/
def rotl64 (n r : Nat) : Nat :=
  ((n <<< r) ||| (n >>> (64 - r))) &&& m64

/-- One Keccak-f round (theta, rho, pi, chi, iota) on the packed state. -/
def keccakRound (s rc : Nat) : Nat :=
  let a0 := s &&& m64
  let a1 := (s >>> 64) &&& m64
  let a2 := (s >>> 128) &&& m64
  let a3 := (s >>> 192) &&& m64
  let a4 := (s >>> 256) &&& m64
  let a5 := (s >>> 320) &&& m64
  let a6 := (s >>> 384) &&& m64
  let a7 := (s >>> 448) &&& m64
  let a8 := (s >>> 512) &&& m64
  let a9 := (s >>> 576) &&& m64
  let a10 := (s >>> 640) &&& m64
  let a11 := (s >>> 704) &&& m64
  let a12 := (s >>> 768) &&& m64
  let a13 := (s >>> 832) &&& m64
  let a14 := (s >>> 896) &&& m64
  let a15 := (s >>> 960) &&& m64
  let a16 := (s >>> 1024) &&& m64
  let a17 := (s >>> 1088) &&& m64
  let a18 := (s >>> 1152) &&& m64
  let a19 := (s >>> 1216) &&& m64
  let a20 := (s >>> 1280) &&& m64
  let a21 := (s >>> 1344) &&& m64
  let a22 := (s >>> 1408) &&& m64
  let a23 := (s >>> 1472) &&& m64
  let a24 := (s >>> 1536) &&& m64
  let c0 := a0 ^^^ a5 ^^^ a10 ^^^ a15 ^^^ a20
  let c1 := a1 ^^^ a6 ^^^ a11 ^^^ a16 ^^^ a21
  let c2 := a2 ^^^ a7 ^^^ a12 ^^^ a17 ^^^ a22
  let c3 := a3 ^^^ a8 ^^^ a13 ^^^ a18 ^^^ a23
  let c4 := a4 ^^^ a9 ^^^ a14 ^^^ a19 ^^^ a24
  let d0 := c4 ^^^ rotl64 c1 1
  let d1 := c0 ^^^ rotl64 c2 1
  let d2 := c1 ^^^ rotl64 c3 1
  let d3 := c2 ^^^ rotl64 c4 1
  let d4 := c3 ^^^ rotl64 c0 1
  let e0 := a0 ^^^ d0
  let e1 := a1 ^^^ d1
  let e2 := a2 ^^^ d2
  let e3 := a3 ^^^ d3
  let e4 := a4 ^^^ d4
  let e5 := a5 ^^^ d0
  let e6 := a6 ^^^ d1
  let e7 := a7 ^^^ d2
  let e8 := a8 ^^^ d3
  let e9 := a9 ^^^ d4
  let e10 := a10 ^^^ d0
  let e11 := a11 ^^^ d1
  let e12 := a12 ^^^ d2
  let e13 := a13 ^^^ d3
  let e14 := a14 ^^^ d4
  let e15 := a15 ^^^ d0
  let e16 := a16 ^^^ d1
  let e17 := a17 ^^^ d2
  let e18 := a18 ^^^ d3
  let e19 := a19 ^^^ d4
  let e20 := a20 ^^^ d0
  let e21 := a21 ^^^ d1
  let e22 := a22 ^^^ d2
  let e23 := a23 ^^^ d3
  let e24 := a24 ^^^ d4
  let b0 := e0
  let b1 := rotl64 e6 44
  let b2 := rotl64 e12 43
  let b3 := rotl64 e18 21
  let b4 := rotl64 e24 14
  let b5 := rotl64 e3 28
  let b6 := rotl64 e9 20
  let b7 := rotl64 e10 3
  let b8 := rotl64 e16 45
  let b9 := rotl64 e22 61
  let b10 := rotl64 e1 1
  let b11 := rotl64 e7 6
  let b12 := rotl64 e13 25
  let b13 := rotl64 e19 8
  let b14 := rotl64 e20 18
  let b15 := rotl64 e4 27
  let b16 := rotl64 e5 36
  let b17 := rotl64 e11 10
  let b18 := rotl64 e17 15
  let b19 := rotl64 e23 56
  let b20 := rotl64 e2 62
  let b21 := rotl64 e8 55
  let b22 := rotl64 e14 39
  let b23 := rotl64 e15 41
  let b24 := rotl64 e21 2
  let f0 := b0 ^^^ ((b1 ^^^ m64) &&& b2) ^^^ rc
  let f1 := b1 ^^^ ((b2 ^^^ m64) &&& b3)
  let f2 := b2 ^^^ ((b3 ^^^ m64) &&& b4)
  let f3 := b3 ^^^ ((b4 ^^^ m64) &&& b0)
  let f4 := b4 ^^^ ((b0 ^^^ m64) &&& b1)
  let f5 := b5 ^^^ ((b6 ^^^ m64) &&& b7)
  let f6 := b6 ^^^ ((b7 ^^^ m64) &&& b8)
  let f7 := b7 ^^^ ((b8 ^^^ m64) &&& b9)
  let f8 := b8 ^^^ ((b9 ^^^ m64) &&& b5)
  let f9 := b9 ^^^ ((b5 ^^^ m64) &&& b6)
  let f10 := b10 ^^^ ((b11 ^^^ m64) &&& b12)
  let f11 := b11 ^^^ ((b12 ^^^ m64) &&& b13)
  let f12 := b12 ^^^ ((b13 ^^^ m64) &&& b14)
  let f13 := b13 ^^^ ((b14 ^^^ m64) &&& b10)
  let f14 := b14 ^^^ ((b10 ^^^ m64) &&& b11)
  let f15 := b15 ^^^ ((b16 ^^^ m64) &&& b17)
  let f16 := b16 ^^^ ((b17 ^^^ m64) &&& b18)
  let f17 := b17 ^^^ ((b18 ^^^ m64) &&& b19)
  let f18 := b18 ^^^ ((b19 ^^^ m64) &&& b15)
  let f19 := b19 ^^^ ((b15 ^^^ m64) &&& b16)
  let f20 := b20 ^^^ ((b21 ^^^ m64) &&& b22)
  let f21 := b21 ^^^ ((b22 ^^^ m64) &&& b23)
  let f22 := b22 ^^^ ((b23 ^^^ m64) &&& b24)
  let f23 := b23 ^^^ ((b24 ^^^ m64) &&& b20)
  let f24 := b24 ^^^ ((b20 ^^^ m64) &&& b21)
  f0 |||
      (f1 <<< 64) |||
      (f2 <<< 128) |||
      (f3 <<< 192) |||
      (f4 <<< 256) |||
      (f5 <<< 320) |||
      (f6 <<< 384) |||
      (f7 <<< 448) |||
      (f8 <<< 512) |||
      (f9 <<< 576) |||
      (f10 <<< 640) |||
      (f11 <<< 704) |||
      (f12 <<< 768) |||
      (f13 <<< 832) |||
      (f14 <<< 896) |||
      (f15 <<< 960) |||
      (f16 <<< 1024) |||
      (f17 <<< 1088) |||
      (f18 <<< 1152) |||
      (f19 <<< 1216) |||
      (f20 <<< 1280) |||
      (f21 <<< 1344) |||
      (f22 <<< 1408) |||
      (f23 <<< 1472) |||
      (f24 <<< 1536)


/-- Keccak round constants. -/
def roundConstants : List Nat :=
  [0x0000000000000001, 0x0000000000008082, 0x800000000000808a, 0x8000000080008000,
   0x000000000000808b, 0x0000000080000001, 0x8000000080008081, 0x8000000000008009,
   0x000000000000008a, 0x0000000000000088, 0x0000000080008009, 0x000000008000000a,
   0x000000008000808b, 0x800000000000008b, 0x8000000000008089, 0x8000000000008003,
   0x8000000000008002, 0x8000000000000080, 0x000000000000800a, 0x800000008000000a,
   0x8000000080008081, 0x8000000000008080, 0x0000000080000001, 0x8000000080008008]

/-- The full Keccak-f[1600] permutation (24 rounds). -/
def keccakF (s : Nat) : Nat :=
  roundConstants.foldl keccakRound s

/-- Multi-rate padding for rate 136 with domain byte 0x01. -/
def keccakPad (msg : List Nat) : List Nat :=
  let q := 136 - msg.length % 136
  if q = 1 then msg ++ [0x81]
  else msg ++ 0x01 :: (List.replicate (q - 2) 0 ++ [0x80])

/-- Absorb `n` rate-sized blocks of the padded message: XOR the block into
lanes 0..16 (its little-endian value) and permute. -/
def absorbBlocks : Nat → Nat → List Nat → Nat
  | 0, s, _ => s
  | n + 1, s, msg => absorbBlocks n (keccakF (s ^^^ leToNat (msg.take 136))) (msg.drop 136)

/-- Keccak-256 of a byte string: pad, absorb, squeeze the first 32 bytes
(lanes 0..3, little-endian). -/
def keccak256 (msg : List Nat) : List Nat :=
  let padded := keccakPad msg
  leBytes 32 (absorbBlocks (padded.length / 136) 0 padded)

/-! ### Operation model and codec

`UserOperation` is the canonical operation record of
`src/src/types/user_operation.rs`.  `pack` embeds the derived
`AbiEncode::encode` (the standard ABI dynamic-tuple encoding specialised to
the struct's eleven fields in declared order: fixed-width head words for the
scalar fields and the four tail offsets, then the tails of the four
variable-length fields in field order, each a length word plus the bytes
zero-padded to a multiple of 32). -/

structure UserOperation where
  sender : Nat
  nonce : Nat
  init_code : List Nat
  call_data : List Nat
  call_gas_limit : Nat
  verification_gas_limit : Nat
  pre_verification_gas : Nat
  max_fee_per_gas : Nat
  max_priority_fee_per_gas : Nat
  paymaster_and_data : List Nat
  signature : List Nat
  deriving DecidableEq, Repr

/-- Tail encoding of one dynamic `bytes` value: 32-byte length word, then
the bytes zero-padded on the right to a multiple of 32. -/
def tailEnc (bs : List Nat) : List Nat :=
  beBytes 32 bs.length ++ (bs ++ List.replicate ((32 - bs.length % 32) % 32) 0)

/-- ABI tuple encoding of a `UserOperation` (`UserOperation::pack`, i.e. the
derived `AbiEncode::encode`).  The head is 11 words (352 bytes): sender,
nonce, offset of the `init_code` tail, offset of the `call_data` tail, the
five scalar gas/fee fields, offset of the `paymaster_and_data` tail, offset
of the `signature` tail; the tails follow in field order. -/
def UserOperation.pack (op : UserOperation) : List Nat :=
  beBytes 32 op.sender ++
  (beBytes 32 op.nonce ++
  (beBytes 32 352 ++
  (beBytes 32 (352 + (tailEnc op.init_code).length) ++
  (beBytes 32 op.call_gas_limit ++
  (beBytes 32 op.verification_gas_limit ++
  (beBytes 32 op.pre_verification_gas ++
  (beBytes 32 op.max_fee_per_gas ++
  (beBytes 32 op.max_priority_fee_per_gas ++
  (beBytes 32 (352 + (tailEnc op.init_code).length + (tailEnc op.call_data).length) ++
  (beBytes 32 (352 + (tailEnc op.init_code).length + (tailEnc op.call_data).length +
      (tailEnc op.paymaster_and_data).length) ++
  (tailEnc op.init_code ++
  (tailEnc op.call_data ++
  (tailEnc op.paymaster_and_data ++
  tailEnc op.signature)))))))))))))

/-- `UserOperation::pack_for_signature`: encode with the `signature` field
replaced by the empty byte string, then drop the trailing 32-byte word (the
tail the empty signature contributes). -/
def UserOperation.pack_for_signature (op : UserOperation) : List Nat :=
  let packed := UserOperation.pack { op with signature := [] }
  packed.take (packed.length - 32)

/-- `UserOperation::hash`: keccak256 of the concatenation of the keccak256 of
the signature payload, the 32-byte encoding of the entry-point address and
the 32-byte encoding of the chain id. -/
def UserOperation.hash (op : UserOperation) (entry_point chain_id : Nat) : List Nat :=
  keccak256 (List.flatten
    [keccak256 (UserOperation.pack_for_signature op),
     beBytes 32 entry_point,
     beBytes 32 chain_id])

/-! ### Decoder

Embedding of the derived `AbiDecode::decode` for `UserOperation` (ethabi's
tuple decoder at this fixed shape): scalar parameters are read from the head
words in declared order; each `bytes` parameter is read through its head
offset word, a length word at the offset, then that many bytes; any
out-of-range read fails.  Addresses are taken from the low 20 bytes of
their word. -/

/-- Read the 32-byte word at byte position `i`. -/
def readWord (data : List Nat) (i : Nat) : Option Nat :=
  if i + 32 ≤ data.length then some (bytesToNat ((data.drop i).take 32)) else none

/-- Read a dynamic `bytes` value whose offset word sits at byte position `i`. -/
def readBytes (data : List Nat) (i : Nat) : Option (List Nat) :=
  match readWord data i with
  | none => none
  | some off =>
    match readWord data off with
    | none => none
    | some len =>
      if off + 32 + len ≤ data.length then some ((data.drop (off + 32)).take len)
      else none

/-- `UserOperation`'s derived `AbiDecode::decode` (named `unpack` in the
specification). -/
def UserOperation.decode (data : List Nat) : Option UserOperation :=
  match readWord data 0, readWord data 32, readBytes data 64, readBytes data 96,
        readWord data 128, readWord data 160, readWord data 192, readWord data 224,
        readWord data 256, readBytes data 288, readBytes data 320 with
  | some sender, some nonce, some init_code, some call_data, some call_gas_limit,
    some verification_gas_limit, some pre_verification_gas, some max_fee_per_gas,
    some max_priority_fee_per_gas, some paymaster_and_data, some signature =>
      some { sender := sender % 2 ^ 160, nonce, init_code, call_data,
             call_gas_limit, verification_gas_limit, pre_verification_gas,
             max_fee_per_gas, max_priority_fee_per_gas, paymaster_and_data,
             signature }
  | _, _, _, _, _, _, _, _, _, _, _ => none

/-- Error type of the database layer (`reth_db::Error`); only the decode
failure variant is reachable from this code. -/
inductive DBError where
  | DecodeError
  deriving DecidableEq, Repr

/-- `Compress::compress` for `UserOperation`: exactly `pack`. -/
def UserOperation.compress (op : UserOperation) : List Nat :=
  op.pack

/-- `Decompress::decompress` for `UserOperation`: ABI-decode, mapping any
failure to `DecodeError`. -/
def UserOperation.decompress (data : List Nat) : Except DBError UserOperation :=
  match UserOperation.decode data with
  | some op => Except.ok op
  | none => Except.error DBError.DecodeError

/-- Validity bounds of a `UserOperation` under the `Nat`-based embedding:
each numeric field fits its Rust width (`Address` is 20 bytes, the rest are
`U256`), and each byte string is short enough for a `usize` length, so that
offsets and length words cannot overflow their 32-byte encoding. -/
def ValidOp (op : UserOperation) : Prop :=
  op.sender < 2 ^ 160 ∧ op.nonce < 2 ^ 256 ∧ op.call_gas_limit < 2 ^ 256 ∧
  op.verification_gas_limit < 2 ^ 256 ∧ op.pre_verification_gas < 2 ^ 256 ∧
  op.max_fee_per_gas < 2 ^ 256 ∧ op.max_priority_fee_per_gas < 2 ^ 256 ∧
  op.init_code.length < 2 ^ 64 ∧ op.call_data.length < 2 ^ 64 ∧
  op.paymaster_and_data.length < 2 ^ 64 ∧ op.signature.length < 2 ^ 64

instance (op : UserOperation) : Decidable (ValidOp op) := by
  unfold ValidOp
  exact inferInstance

/-! ### Draft operations ( UserOperationPartial ) -/

structure UserOperationPartial where
  sender : Nat
  nonce : Nat
  init_code : Option (List Nat)
  call_data : Option (List Nat)
  call_gas_limit : Option Nat
  verification_gas_limit : Option Nat
  pre_verification_gas : Option Nat
  max_fee_per_gas : Option Nat
  max_priority_fee_per_gas : Option Nat
  paymaster_and_data : Option (List Nat)
  signature : Option (List Nat)
  deriving DecidableEq, Repr

/-- Conversion `From<UserOperationPartial> for UserOperation`: sender and
nonce are copied; every optional field falls back to its fixed default when
absent. -/
def UserOperation.fromPartial (user_operation : UserOperationPartial) : UserOperation :=
  { sender := user_operation.sender
    nonce := user_operation.nonce
    init_code :=
      match user_operation.init_code with
      | some init_code => init_code
      | none => []
    call_data :=
      match user_operation.call_data with
      | some call_data => call_data
      | none => []
    call_gas_limit :=
      match user_operation.call_gas_limit with
      | some call_gas_limit => call_gas_limit
      | none => 0
    verification_gas_limit :=
      match user_operation.verification_gas_limit with
      | some verification_gas_limit => verification_gas_limit
      | none => 10000000
    pre_verification_gas :=
      match user_operation.pre_verification_gas with
      | some pre_verification_gas => pre_verification_gas
      | none => 0
    max_fee_per_gas :=
      match user_operation.max_fee_per_gas with
      | some max_fee_per_gas => max_fee_per_gas
      | none => 0
    max_priority_fee_per_gas :=
      match user_operation.max_priority_fee_per_gas with
      | some max_priority_fee_per_gas => max_priority_fee_per_gas
      | none => 0
    paymaster_and_data :=
      match user_operation.paymaster_and_data with
      | some paymaster_and_data => paymaster_and_data
      | none => []
    signature :=
      match user_operation.signature with
      | some signature => signature
      | none => List.replicate 65 1 }

/-! ### Overhead calculator and the VerificationGas sanity check -/

/-- Modelled from the spec: the `Overhead` cost table of the Overhead
Calculator (`crates/uopool`'s `Overhead` type) is not part of the shown
sources — only its caller `VerificationGas::check_user_operation` is — so
the table is kept abstract as three constants (fixed per-operation cost,
per-zero-byte cost, per-nonzero-byte cost). -/
structure Overhead where
  fixed : Nat
  zero_byte_cost : Nat
  nonzero_byte_cost : Nat

/-- Modelled from the spec: `Overhead::calculate_pre_verification_gas`
computes `fixed + zero_count * zero_byte_cost + nonzero_count *
nonzero_byte_cost` over the full packed encoding of the operation. -/
def Overhead.calculate_pre_verification_gas (o : Overhead) (uo : UserOperation) : Nat :=
  o.fixed + (uo.pack.filter (fun b => b = 0)).length * o.zero_byte_cost +
    (uo.pack.filter (fun b => b ≠ 0)).length * o.nonzero_byte_cost

/-- Sanity-check error taxonomy (`SanityCheckError`); only the two variants
produced by `VerificationGas::check_user_operation` are modelled. -/
inductive SanityCheckError where
  | HighVerificationGasLimit (verification_gas_limit max_verification_gas : Nat)
  | LowPreVerificationGas (pre_verification_gas pre_verification_gas_expected : Nat)
  deriving DecidableEq, Repr

/-- `VerificationGas::check_user_operation`
(`src/crates/uopool/src/validate/sanity/verification_gas.rs`).  The check is
parameterised by the cost table the source obtains from
`Overhead::default()`, whose constants are not part of the shown sources. -/
def VerificationGas.check_user_operation (default_overhead : Overhead)
    (max_verification_gas : Nat) (uo : UserOperation) :
    Except SanityCheckError Unit :=
  if uo.verification_gas_limit > max_verification_gas then
    Except.error (SanityCheckError.HighVerificationGasLimit
      uo.verification_gas_limit max_verification_gas)
  else
    let pre_gas := default_overhead.calculate_pre_verification_gas uo
    if uo.pre_verification_gas < pre_gas then
      Except.error (SanityCheckError.LowPreVerificationGas
        uo.pre_verification_gas pre_gas)
    else
      Except.ok ()

/-! ### Batch decoder -/

/-- The generated `entry_point_api::UserOperation` binding (same eleven
fields as `UserOperation`). -/
structure EPUserOperation where
  sender : Nat
  nonce : Nat
  init_code : List Nat
  call_data : List Nat
  call_gas_limit : Nat
  verification_gas_limit : Nat
  pre_verification_gas : Nat
  max_fee_per_gas : Nat
  max_priority_fee_per_gas : Nat
  paymaster_and_data : List Nat
  signature : List Nat
  deriving DecidableEq, Repr

/-- `From<entry_point_api::UserOperation> for UserOperation`: field-wise copy. -/
def EPUserOperation.toUserOperation (value : EPUserOperation) : UserOperation :=
  { sender := value.sender
    nonce := value.nonce
    init_code := value.init_code
    call_data := value.call_data
    call_gas_limit := value.call_gas_limit
    verification_gas_limit := value.verification_gas_limit
    pre_verification_gas := value.pre_verification_gas
    max_fee_per_gas := value.max_fee_per_gas
    max_priority_fee_per_gas := value.max_priority_fee_per_gas
    paymaster_and_data := value.paymaster_and_data
    signature := value.signature }

/-- Modelled from the spec: the generated `EntryPointAPICalls` enum (the
selector-discriminated decoding of entry-point calldata) is generated
contract-binding code not among the shown sources.  The `HandleOps` variant
carries the embedded operation list and the beneficiary address; every other
entry-point call variant is collapsed into `OtherCall`, which
`parse_from_input_data` treats uniformly. -/
inductive EntryPointAPICalls where
  | HandleOps (ops : List EPUserOperation) (beneficiary : Nat)
  | OtherCall
  deriving DecidableEq, Repr

/-- `parse_from_input_data`, parameterised by the generated
`EntryPointAPICalls::decode` (abigen code outside the shown sources; `none`
stands for its `Err` results): on a `HandleOps` call return the embedded
operations in order, otherwise `none`. -/
def parse_from_input_data
    (decode : List Nat → Option EntryPointAPICalls) (data : List Nat) :
    Option (List UserOperation) :=
  match decode data with
  | some (EntryPointAPICalls.HandleOps ops _) =>
      some (ops.map EPUserOperation.toUserOperation)
  | some EntryPointAPICalls.OtherCall => none
  | none => none

/-! ### Test fixtures of the repository

The two operations of the `user_operation_pack` / `user_operation_hash`
tests in `src/src/types/user_operation.rs`, with their verifier address. -/

/-- 65-byte signature of the second fixture operation. -/
def testSignature : List Nat :=
  [124, 179, 150, 7, 88, 93, 238, 142, 41, 125, 13, 122, 102, 154, 216, 197,
   228, 57, 117, 34, 11, 103, 115, 193, 10, 19, 141, 234, 219, 200, 236, 134,
   73, 129, 222, 75, 155, 60, 115, 82, 136, 162, 23, 17, 95, 179, 63, 131,
   38, 166, 29, 218, 188, 96, 165, 52, 227, 181, 83, 101, 21, 199, 15, 147, 28]

/-- Fixture operation with zero sender. -/
def testOp0 : UserOperation :=
  { sender := 0, nonce := 0, init_code := [], call_data := [],
    call_gas_limit := 0, verification_gas_limit := 100000,
    pre_verification_gas := 21000, max_fee_per_gas := 0,
    max_priority_fee_per_gas := 1000000000, paymaster_and_data := [],
    signature := [] }

/-- Fixture operation with non-zero sender and a real signature. -/
def testOp1 : UserOperation :=
  { sender := 0x663F3ad617193148711d28f5334eE4Ed07016602, nonce := 0,
    init_code := [], call_data := [], call_gas_limit := 200000,
    verification_gas_limit := 100000, pre_verification_gas := 21000,
    max_fee_per_gas := 3000000000, max_priority_fee_per_gas := 1000000000,
    paymaster_and_data := [], signature := testSignature }

/-- Verifier (entry-point) address used by the hash fixtures. -/
def testEntryPoint : Nat := 0x2DF1592238420ecFe7f2431360e224707e77fA0E

/-- Draft operation with every optional field absent. -/
def testPartialNone : UserOperationPartial :=
  { sender := 5, nonce := 7, init_code := none, call_data := none,
    call_gas_limit := none, verification_gas_limit := none,
    pre_verification_gas := none, max_fee_per_gas := none,
    max_priority_fee_per_gas := none, paymaster_and_data := none,
    signature := none }

/-- Draft operation with every optional field present. -/
def testPartialSome : UserOperationPartial :=
  { sender := 5, nonce := 7, init_code := some [1], call_data := some [2, 3],
    call_gas_limit := some 11, verification_gas_limit := some 12,
    pre_verification_gas := some 13, max_fee_per_gas := some 14,
    max_priority_fee_per_gas := some 15, paymaster_and_data := some [4],
    signature := some [5, 6] }

/-- A sample generated-binding operation for the batch-decoder fixtures. -/
def testEPOp : EPUserOperation :=
  { sender := 3, nonce := 1, init_code := [], call_data := [0xa9],
    call_gas_limit := 2, verification_gas_limit := 3, pre_verification_gas := 4,
    max_fee_per_gas := 5, max_priority_fee_per_gas := 6,
    paymaster_and_data := [], signature := [7] }

/-! ### Keccak evaluation lemmas

The kernel evaluates one permutation per lemma (a chain of permutations in
a single reduction overflows the elaborator stack), so multi-block digests
are assembled by rewriting through the literal intermediate states. -/

/-- Unfolding of `keccak256` into pad, absorb and squeeze. -/
theorem keccak256_def (msg : List Nat) :
    keccak256 msg =
      leBytes 32 (absorbBlocks ((keccakPad msg).length / 136) 0 (keccakPad msg)) := rfl

/-- Symbolic unrolling of a four-block absorb phase. -/
theorem absorbBlocks_four (s : Nat) (msg : List Nat) :
    absorbBlocks 4 s msg =
      keccakF (keccakF (keccakF (keccakF (s ^^^ leToNat (msg.take 136))
          ^^^ leToNat ((msg.drop 136).take 136))
          ^^^ leToNat (((msg.drop 136).drop 136).take 136))
          ^^^ leToNat ((((msg.drop 136).drop 136).drop 136).take 136)) := rfl

/-- Validation of the Keccak embedding on the standard empty-input vector. -/
theorem keccak256_nil :
    keccak256 [] =
      beBytes 32 0xc5d2460186f7233c927e7db2dcc703c0e500b653ca82273b7bfad8045d85a470 := by
  decide

/-- Intermediate sponge states and digest of `keccak256` on op0's
signature payload, one permutation per step so each kernel evaluation
stays shallow. -/
theorem keccakStep_op0_1 :
    keccakF (0 ^^^ leToNat ((keccakPad (UserOperation.pack_for_signature testOp0)).take 136)) =
      0x9ae5a7d9d0779f681c74b61a511622a62eb8bd0808eeb83b832ddd96b64d6bbb74b11e7f78da69c1c0ef80f75a9f9d1c33642a991e434b92656fa3bc8682fca676b01be8e42a9e1a88757d33a5b990edddda98248372a860f3f49e18224bfe608c0e1e802490f6f0953ce364666a04f4582ec620568fa435b3c3650f5171c53dfa288b5cae43c48c6a0690fc6b50c0369a1b1646b0760f38394c530985a4a8807a06a485a4bcaf2574c6883619c4b859d61f1dc66b141e9acd8313fe305a0978758290316be3ab8c := by
  decide

theorem keccakStep_op0_2 :
    keccakF (0x9ae5a7d9d0779f681c74b61a511622a62eb8bd0808eeb83b832ddd96b64d6bbb74b11e7f78da69c1c0ef80f75a9f9d1c33642a991e434b92656fa3bc8682fca676b01be8e42a9e1a88757d33a5b990edddda98248372a860f3f49e18224bfe608c0e1e802490f6f0953ce364666a04f4582ec620568fa435b3c3650f5171c53dfa288b5cae43c48c6a0690fc6b50c0369a1b1646b0760f38394c530985a4a8807a06a485a4bcaf2574c6883619c4b859d61f1dc66b141e9acd8313fe305a0978758290316be3ab8c ^^^ leToNat (((keccakPad (UserOperation.pack_for_signature testOp0)).drop 136).take 136)) =
      0x1a383996214b8e3e5517e9e7a829397d6b575dee0c2a6ec4d5af24d1b61c09ce0eb4f55c37610b027c163c5fff64d24b7b34f6c49a784d31af67dd4e95b094aecab310e73c34f0154728d3b2c2af7d31bf93a902b0db9d38f21bc2d916aa6f2306039508c3d9390c075a3c8443e810ec6c5cdacc214f0bf34d559ef7d9223948f1d95f5d93ba7131ca2ff8224c1e59767e58c6f29ca364add9902de622863cbdcf490f0245b3c6d3d7e7e6f35e1beed5e7a1756f383dbdda22256c8f7762e5bc98a3d66c7234efd0 := by
  decide

theorem keccakStep_op0_3 :
    keccakF (0x1a383996214b8e3e5517e9e7a829397d6b575dee0c2a6ec4d5af24d1b61c09ce0eb4f55c37610b027c163c5fff64d24b7b34f6c49a784d31af67dd4e95b094aecab310e73c34f0154728d3b2c2af7d31bf93a902b0db9d38f21bc2d916aa6f2306039508c3d9390c075a3c8443e810ec6c5cdacc214f0bf34d559ef7d9223948f1d95f5d93ba7131ca2ff8224c1e59767e58c6f29ca364add9902de622863cbdcf490f0245b3c6d3d7e7e6f35e1beed5e7a1756f383dbdda22256c8f7762e5bc98a3d66c7234efd0 ^^^ leToNat ((((keccakPad (UserOperation.pack_for_signature testOp0)).drop 136).drop 136).take 136)) =
      0xb6308d51edd1150730bd5abd53b467cdd8bd615da41180b7468d6466842a8a49ee9e12ec56eb00eed5408ad1b55512c3098bed55d9914ce95a0a3052efff25aa262be08c2d657219bcabd9f56d3cea81cef6dd9edc058993a263c5eec00d277860715f1b6791745a60ffc29127bfa6192363f2764153fc987828cf501f6e1afcd9a095f8b8eca1693de9dfe8400e9c96eadc34646870b859f2887875b01614f7585f2d5ee58ff149ed4e62b1c4a5b5ed6ef3376e6defcdae52dc636d70aa4030429e418ae0d59054 := by
  decide

theorem keccakStep_op0_4 :
    keccakF (0xb6308d51edd1150730bd5abd53b467cdd8bd615da41180b7468d6466842a8a49ee9e12ec56eb00eed5408ad1b55512c3098bed55d9914ce95a0a3052efff25aa262be08c2d657219bcabd9f56d3cea81cef6dd9edc058993a263c5eec00d277860715f1b6791745a60ffc29127bfa6192363f2764153fc987828cf501f6e1afcd9a095f8b8eca1693de9dfe8400e9c96eadc34646870b859f2887875b01614f7585f2d5ee58ff149ed4e62b1c4a5b5ed6ef3376e6defcdae52dc636d70aa4030429e418ae0d59054 ^^^ leToNat (((((keccakPad (UserOperation.pack_for_signature testOp0)).drop 136).drop 136).drop 136).take 136)) =
      0x656a7b79dc3e1e98de412f8309ea181ae2e340cff6dad6d60495a19b207c54314d109a9cb7c1a33ee5320b16c027e00f46d1f25e8941687d997c08fb94adfc6355478849aec1d877d14982b19c42ccceda135d945b1308e511de49a1e9bba6e30396883c021a86cfcdb8027f33b9ec286d8271e7ad82367c470d0e187b0a70c8d6e5aaa24ca92e86c810f717ea4942f8403e4a74f53bc6204903d82099b9a03ea5883f83e1757cfe6143e5ced7bb1c55aa7b365388f13027055ccd4e7830102e09e7514d04a484f9 := by
  decide

/-- Digest of the op0 absorb chain above. -/
theorem keccakDigest_op0 :
    keccak256 (UserOperation.pack_for_signature testOp0) =
      beBytes 32 0xf984a4044d51e7092e1030784ecd5c052730f18853367baa551cbbd7cee54361 := by
  rw [keccak256_def, show (keccakPad (UserOperation.pack_for_signature testOp0)).length / 136 = 4 from by decide,
    absorbBlocks_four, keccakStep_op0_1, keccakStep_op0_2, keccakStep_op0_3,
    keccakStep_op0_4]
  decide

/-- Intermediate sponge states and digest of `keccak256` on op1's
signature payload, one permutation per step so each kernel evaluation
stays shallow. -/
theorem keccakStep_op1_1 :
    keccakF (0 ^^^ leToNat ((keccakPad (UserOperation.pack_for_signature testOp1)).take 136)) =
      0xc51ec2d5c052fbbe74e7d2870e181ebbfb702810620c21eafa11ffafc1e2421a3032700d72a77c1b4cae228c565df7e30b001ffe6c1f902bf35291c45b380e9661d296e24ccba6cec959f6a654eb229c31a8bf195d0269f5a14a87fcdbbf820dd198c4ef132145598654e8e1b4064cae057d79b1ee94e4840a11604dc963a3da1e5f5767ac77395858d5ef070f1d396d7bdb917b4fa8de83273da470f57ec24497d45183937279f8110bd152e5be876c88dbeab09f6363d82574cd2907a56ca7b8651d5235b89ff1 := by
  decide

theorem keccakStep_op1_2 :
    keccakF (0xc51ec2d5c052fbbe74e7d2870e181ebbfb702810620c21eafa11ffafc1e2421a3032700d72a77c1b4cae228c565df7e30b001ffe6c1f902bf35291c45b380e9661d296e24ccba6cec959f6a654eb229c31a8bf195d0269f5a14a87fcdbbf820dd198c4ef132145598654e8e1b4064cae057d79b1ee94e4840a11604dc963a3da1e5f5767ac77395858d5ef070f1d396d7bdb917b4fa8de83273da470f57ec24497d45183937279f8110bd152e5be876c88dbeab09f6363d82574cd2907a56ca7b8651d5235b89ff1 ^^^ leToNat (((keccakPad (UserOperation.pack_for_signature testOp1)).drop 136).take 136)) =
      0x4cc0e155dc76e166cf6144b26032669d232fffb96293c355be980ec5a3fd41d80555600a2807d5cc08a1ac6921082ca76ba3c11e81c281d9fcbda07a3b810e6f6fefad3a83d22fc7b6ea6e6ebb827e79acfdf782dbed8e9983396d6192cbee9b1382210ec33c0513f8f0be3fa137677865314e939ee7802cccb1a165ed67f017bf079455dff886c2dadb300e4673f0fe9069fa03a8ca6f2dd4b7f4204e0f6a9040bf4b171c04c69d0f00119a57d402d05a9063410e4cacb2de6ccf15a35d6b71bdcf908680a879e2 := by
  decide

theorem keccakStep_op1_3 :
    keccakF (0x4cc0e155dc76e166cf6144b26032669d232fffb96293c355be980ec5a3fd41d80555600a2807d5cc08a1ac6921082ca76ba3c11e81c281d9fcbda07a3b810e6f6fefad3a83d22fc7b6ea6e6ebb827e79acfdf782dbed8e9983396d6192cbee9b1382210ec33c0513f8f0be3fa137677865314e939ee7802cccb1a165ed67f017bf079455dff886c2dadb300e4673f0fe9069fa03a8ca6f2dd4b7f4204e0f6a9040bf4b171c04c69d0f00119a57d402d05a9063410e4cacb2de6ccf15a35d6b71bdcf908680a879e2 ^^^ leToNat ((((keccakPad (UserOperation.pack_for_signature testOp1)).drop 136).drop 136).take 136)) =
      0x70f9cf9d9eb2af1b7b1e2f54c1676660e49769ffdcc762ffda7231e60f7bc9d6f5a87fc24d64555b2349fdae4d37a279e8ca458a9f325ddfe85e1c978644ccd2f2f94f6982f804e7ccdbef9334095ec9365de27cc3cff96e86650f7d859cdd012805447bdffae073eeafbc75ac87a5dc7446170840be68eb35d4f492c71ba21b06350443fa862e54dc38d6a566b77d24efb09a83be2a4fe751783ad09710d9f289db4c39a485de0bb680b29677ca2afac77e292bb0f2d089c37cce628cef60847eb48cda4ef6401b := by
  decide

theorem keccakStep_op1_4 :
    keccakF (0x70f9cf9d9eb2af1b7b1e2f54c1676660e49769ffdcc762ffda7231e60f7bc9d6f5a87fc24d64555b2349fdae4d37a279e8ca458a9f325ddfe85e1c978644ccd2f2f94f6982f804e7ccdbef9334095ec9365de27cc3cff96e86650f7d859cdd012805447bdffae073eeafbc75ac87a5dc7446170840be68eb35d4f492c71ba21b06350443fa862e54dc38d6a566b77d24efb09a83be2a4fe751783ad09710d9f289db4c39a485de0bb680b29677ca2afac77e292bb0f2d089c37cce628cef60847eb48cda4ef6401b ^^^ leToNat (((((keccakPad (UserOperation.pack_for_signature testOp1)).drop 136).drop 136).drop 136).take 136)) =
      0xc57f72e7903ada5ef1740a938750296ae025c13c4e52ae9114cc0c94d63d23b855c7b290531480a1368cdac8516fab2ffb50ee8b218314111caed274ecdbba975decc060ba33efd745a6518aa081bb730fd51b254a4400653bbca2b60b68de96ffc07334b246be964e572dd27cef729e49f51345b23e54fa258bdac1e00dde928b861fbe8329d85908368347b70363f95fef2e4d2a76283c239657e5aed7f1df46e9ce219ae10b2adacb6747aaf7b7d3a2548f0e6f0b58299904fc65753a9702f30ab5c73ab9def3 := by
  decide

/-- Digest of the op1 absorb chain above. -/
theorem keccakDigest_op1 :
    keccak256 (UserOperation.pack_for_signature testOp1) =
      beBytes 32 0xf3deb93ac7b50af302973a7565fc049929580b6f0e8f54a2d3b7f7aa4767cbda := by
  rw [keccak256_def, show (keccakPad (UserOperation.pack_for_signature testOp1)).length / 136 = 4 from by decide,
    absorbBlocks_four, keccakStep_op1_1, keccakStep_op1_2, keccakStep_op1_3,
    keccakStep_op1_4]
  decide

/-- Intermediate sponge states and digest of `keccak256` on sp's
signature payload, one permutation per step so each kernel evaluation
stays shallow. -/
theorem keccakStep_sp_1 :
    keccakF (0 ^^^ leToNat ((keccakPad (UserOperation.pack_for_signature testOp0 ++ (beBytes 32 testEntryPoint ++ beBytes 32 1))).take 136)) =
      0x9ae5a7d9d0779f681c74b61a511622a62eb8bd0808eeb83b832ddd96b64d6bbb74b11e7f78da69c1c0ef80f75a9f9d1c33642a991e434b92656fa3bc8682fca676b01be8e42a9e1a88757d33a5b990edddda98248372a860f3f49e18224bfe608c0e1e802490f6f0953ce364666a04f4582ec620568fa435b3c3650f5171c53dfa288b5cae43c48c6a0690fc6b50c0369a1b1646b0760f38394c530985a4a8807a06a485a4bcaf2574c6883619c4b859d61f1dc66b141e9acd8313fe305a0978758290316be3ab8c := by
  decide

theorem keccakStep_sp_2 :
    keccakF (0x9ae5a7d9d0779f681c74b61a511622a62eb8bd0808eeb83b832ddd96b64d6bbb74b11e7f78da69c1c0ef80f75a9f9d1c33642a991e434b92656fa3bc8682fca676b01be8e42a9e1a88757d33a5b990edddda98248372a860f3f49e18224bfe608c0e1e802490f6f0953ce364666a04f4582ec620568fa435b3c3650f5171c53dfa288b5cae43c48c6a0690fc6b50c0369a1b1646b0760f38394c530985a4a8807a06a485a4bcaf2574c6883619c4b859d61f1dc66b141e9acd8313fe305a0978758290316be3ab8c ^^^ leToNat (((keccakPad (UserOperation.pack_for_signature testOp0 ++ (beBytes 32 testEntryPoint ++ beBytes 32 1))).drop 136).take 136)) =
      0x1a383996214b8e3e5517e9e7a829397d6b575dee0c2a6ec4d5af24d1b61c09ce0eb4f55c37610b027c163c5fff64d24b7b34f6c49a784d31af67dd4e95b094aecab310e73c34f0154728d3b2c2af7d31bf93a902b0db9d38f21bc2d916aa6f2306039508c3d9390c075a3c8443e810ec6c5cdacc214f0bf34d559ef7d9223948f1d95f5d93ba7131ca2ff8224c1e59767e58c6f29ca364add9902de622863cbdcf490f0245b3c6d3d7e7e6f35e1beed5e7a1756f383dbdda22256c8f7762e5bc98a3d66c7234efd0 := by
  decide

theorem keccakStep_sp_3 :
    keccakF (0x1a383996214b8e3e5517e9e7a829397d6b575dee0c2a6ec4d5af24d1b61c09ce0eb4f55c37610b027c163c5fff64d24b7b34f6c49a784d31af67dd4e95b094aecab310e73c34f0154728d3b2c2af7d31bf93a902b0db9d38f21bc2d916aa6f2306039508c3d9390c075a3c8443e810ec6c5cdacc214f0bf34d559ef7d9223948f1d95f5d93ba7131ca2ff8224c1e59767e58c6f29ca364add9902de622863cbdcf490f0245b3c6d3d7e7e6f35e1beed5e7a1756f383dbdda22256c8f7762e5bc98a3d66c7234efd0 ^^^ leToNat ((((keccakPad (UserOperation.pack_for_signature testOp0 ++ (beBytes 32 testEntryPoint ++ beBytes 32 1))).drop 136).drop 136).take 136)) =
      0xb6308d51edd1150730bd5abd53b467cdd8bd615da41180b7468d6466842a8a49ee9e12ec56eb00eed5408ad1b55512c3098bed55d9914ce95a0a3052efff25aa262be08c2d657219bcabd9f56d3cea81cef6dd9edc058993a263c5eec00d277860715f1b6791745a60ffc29127bfa6192363f2764153fc987828cf501f6e1afcd9a095f8b8eca1693de9dfe8400e9c96eadc34646870b859f2887875b01614f7585f2d5ee58ff149ed4e62b1c4a5b5ed6ef3376e6defcdae52dc636d70aa4030429e418ae0d59054 := by
  decide

theorem keccakStep_sp_4 :
    keccakF (0xb6308d51edd1150730bd5abd53b467cdd8bd615da41180b7468d6466842a8a49ee9e12ec56eb00eed5408ad1b55512c3098bed55d9914ce95a0a3052efff25aa262be08c2d657219bcabd9f56d3cea81cef6dd9edc058993a263c5eec00d277860715f1b6791745a60ffc29127bfa6192363f2764153fc987828cf501f6e1afcd9a095f8b8eca1693de9dfe8400e9c96eadc34646870b859f2887875b01614f7585f2d5ee58ff149ed4e62b1c4a5b5ed6ef3376e6defcdae52dc636d70aa4030429e418ae0d59054 ^^^ leToNat (((((keccakPad (UserOperation.pack_for_signature testOp0 ++ (beBytes 32 testEntryPoint ++ beBytes 32 1))).drop 136).drop 136).drop 136).take 136)) =
      0xe72d2d2d951c6aee20652f80165399bbdf56120d8d9aa990e22071a4ac137000d2d66858708743093ac7f92a7df79377dc6076faaf8063ce5bc2be94a82e06718d8d20e988bfd0f41f7cf5768b8edc45b5c2cb67311a9cdd07a4b94a2d492dcc654ca282565d38326873c94e3790288a7b68a199416363d9fad67464cf7e99b9428e761140c23c6febb642e3c54390f3dee22de9327659022036042780a333a46d17401ebeaeb16cc8fa373f0c734e9e0537a21ce7405d4d9f63b759c5c036a7774a23f57e65f2f4 := by
  decide

/-- Digest of the sp absorb chain above. -/
theorem keccakDigest_sp :
    keccak256 (UserOperation.pack_for_signature testOp0 ++ (beBytes 32 testEntryPoint ++ beBytes 32 1)) =
      beBytes 32 0xf4f2657ef5234a77a736c0c559b7639f4d5d40e71ca237059e4e730c3f37fac8 := by
  rw [keccak256_def, show (keccakPad (UserOperation.pack_for_signature testOp0 ++ (beBytes 32 testEntryPoint ++ beBytes 32 1))).length / 136 = 4 from by decide,
    absorbBlocks_four, keccakStep_sp_1, keccakStep_sp_2, keccakStep_sp_3,
    keccakStep_sp_4]
  decide

/-- Identifier of `testOp0` against the fixture verifier and chain id 1,
matching the `user_operation_hash` test. -/
theorem hash_testOp0 :
    UserOperation.hash testOp0 testEntryPoint 1 =
      beBytes 32 0x42e145138104ec4124367ea3f7994833071b2011927290f6844d593e05011279 := by
  have unfoldHash : UserOperation.hash testOp0 testEntryPoint 1 =
      keccak256 (List.flatten
        [keccak256 (UserOperation.pack_for_signature testOp0),
         beBytes 32 testEntryPoint, beBytes 32 1]) := rfl
  rw [unfoldHash, keccakDigest_op0]
  decide

/-- Identifier of `testOp1` against the fixture verifier and chain id 1,
matching the `user_operation_hash` test. -/
theorem hash_testOp1 :
    UserOperation.hash testOp1 testEntryPoint 1 =
      beBytes 32 0x583c8fcba470fd9da514f9482ccd31c299b0161a36b365aab353a6bfebaa0bb2 := by
  have unfoldHash : UserOperation.hash testOp1 testEntryPoint 1 =
      keccak256 (List.flatten
        [keccak256 (UserOperation.pack_for_signature testOp1),
         beBytes 32 testEntryPoint, beBytes 32 1]) := rfl
  rw [unfoldHash, keccakDigest_op1]
  decide


/-! ### Round-trip lemmas -/

theorem beBytes_length (k n : Nat) : (beBytes k n).length = k := by
  induction k generalizing n with
  | zero => rfl
  | succ k ih => simp [beBytes, ih]

theorem bytesToNat_append (bs : List Nat) (b : Nat) :
    bytesToNat (bs ++ [b]) = bytesToNat bs * 256 + b := by
  simp [bytesToNat, List.foldl_append]

theorem bytesToNat_beBytes {k n : Nat} (h : n < 256 ^ k) :
    bytesToNat (beBytes k n) = n := by
  induction k generalizing n with
  | zero =>
    simp [beBytes, bytesToNat]
    omega
  | succ k ih =>
    have hq : n / 256 < 256 ^ k := by
      rw [Nat.div_lt_iff_lt_mul (by norm_num)]
      calc n < 256 ^ (k + 1) := h
        _ = 256 ^ k * 256 := by rw [pow_succ]
    rw [beBytes, bytesToNat_append, ih hq]
    omega

theorem tailEnc_length (bs : List Nat) :
    (tailEnc bs).length = 32 + (bs.length + (32 - bs.length % 32) % 32) := by
  simp [tailEnc, beBytes_length, List.length_append, List.length_replicate]

theorem readWord_extract (data pre w rest : List Nat) (i : Nat)
    (hd : data = pre ++ (w ++ rest)) (hw : w.length = 32) (hp : pre.length = i) :
    readWord data i = some (bytesToNat w) := by
  subst hd
  subst hp
  have hlen : pre.length + 32 ≤ (pre ++ (w ++ rest)).length := by
    simp [List.length_append, hw]
  rw [readWord, if_pos hlen, List.drop_left, ← hw, List.take_left]

theorem readWord_extract_zero (data w rest : List Nat)
    (hd : data = w ++ rest) (hw : w.length = 32) :
    readWord data 0 = some (bytesToNat w) :=
  readWord_extract data [] w rest 0 (by rw [hd, List.nil_append]) hw rfl

theorem readBytes_extract (data pre bs rest : List Nat) (i off : Nat)
    (hoff : readWord data i = some off)
    (hd : data = pre ++ (beBytes 32 bs.length ++ (bs ++ rest)))
    (hp : pre.length = off) (hlen : bs.length < 256 ^ 32) :
    readBytes data i = some bs := by
  have hlw : readWord data off = some bs.length := by
    have h := readWord_extract data pre (beBytes 32 bs.length) (bs ++ rest) off hd
      (beBytes_length 32 _) hp
    rwa [bytesToNat_beBytes hlen] at h
  simp only [readBytes, hoff, hlw]
  have hbound : off + 32 + bs.length ≤ data.length := by
    subst hd
    simp [List.length_append, beBytes_length]
    omega
  rw [if_pos hbound]
  have hassoc : data = (pre ++ beBytes 32 bs.length) ++ (bs ++ rest) := by
    rw [hd, List.append_assoc]
  have hlen2 : (pre ++ beBytes 32 bs.length).length = off + 32 := by
    simp [List.length_append, beBytes_length, hp]
  rw [hassoc, show off + 32 = (pre ++ beBytes 32 bs.length).length from hlen2.symm,
    List.drop_left, List.take_left]

/-- ABI round-trip: decoding the canonical encoding of a valid operation
recovers the operation. -/
theorem decode_pack (op : UserOperation) (h : ValidOp op) :
    UserOperation.decode (UserOperation.pack op) = some op := by
  obtain ⟨hs, hn, hcgl, hvgl, hpvg, hmf, hmpf, hic, hcd, hpmd, hsig⟩ := h
  have p32 : (256 : Nat) ^ 32 = 2 ^ 256 := by norm_num
  have e64 : (2 : Nat) ^ 64 = 18446744073709551616 := by norm_num
  have e256 : (2 : Nat) ^ 256 =
      115792089237316195423570985008687907853269984665640564039457584007913129639936 := by
    norm_num
  have e160 : (2 : Nat) ^ 160 = 1461501637330902918203684832716283019655932542976 := by
    norm_num
  have hsLit := hs
  rw [e160] at hsLit
  rw [e64] at hic hcd hpmd hsig
  have hT1 : (tailEnc op.init_code).length ≤ 18446744073709551679 := by
    rw [tailEnc_length]; omega
  have hT2 : (tailEnc op.call_data).length ≤ 18446744073709551679 := by
    rw [tailEnc_length]; omega
  have hT3 : (tailEnc op.paymaster_and_data).length ≤ 18446744073709551679 := by
    rw [tailEnc_length]; omega
  have hbSender : op.sender < 256 ^ 32 := by rw [p32, e256]; omega
  have hbNonce : op.nonce < 256 ^ 32 := by rw [p32]; exact hn
  have hb352 : (352 : Nat) < 256 ^ 32 := by rw [p32, e256]; omega
  have hbCgl : op.call_gas_limit < 256 ^ 32 := by rw [p32]; exact hcgl
  have hbVgl : op.verification_gas_limit < 256 ^ 32 := by rw [p32]; exact hvgl
  have hbPvg : op.pre_verification_gas < 256 ^ 32 := by rw [p32]; exact hpvg
  have hbMf : op.max_fee_per_gas < 256 ^ 32 := by rw [p32]; exact hmf
  have hbMpf : op.max_priority_fee_per_gas < 256 ^ 32 := by rw [p32]; exact hmpf
  have hbOff1 : 352 + (tailEnc op.init_code).length < 256 ^ 32 := by
    rw [p32, e256]; omega
  have hbOff2 : 352 + (tailEnc op.init_code).length + (tailEnc op.call_data).length <
      256 ^ 32 := by
    rw [p32, e256]; omega
  have hbOff3 : 352 + (tailEnc op.init_code).length + (tailEnc op.call_data).length +
      (tailEnc op.paymaster_and_data).length < 256 ^ 32 := by
    rw [p32, e256]; omega
  have hbIc : op.init_code.length < 256 ^ 32 := by rw [p32, e256]; omega
  have hbCd : op.call_data.length < 256 ^ 32 := by rw [p32, e256]; omega
  have hbPmd : op.paymaster_and_data.length < 256 ^ 32 := by rw [p32, e256]; omega
  have hbSig : op.signature.length < 256 ^ 32 := by rw [p32, e256]; omega
  have hw0 : readWord (UserOperation.pack op) 0 = some (op.sender) := by
    have hx := readWord_extract_zero (UserOperation.pack op)
      (beBytes 32 op.sender)
      (beBytes 32 op.nonce ++
      (beBytes 32 352 ++
      (beBytes 32 (352 + (tailEnc op.init_code).length) ++
      (beBytes 32 op.call_gas_limit ++
      (beBytes 32 op.verification_gas_limit ++
      (beBytes 32 op.pre_verification_gas ++
      (beBytes 32 op.max_fee_per_gas ++
      (beBytes 32 op.max_priority_fee_per_gas ++
      (beBytes 32 (352 + (tailEnc op.init_code).length + (tailEnc op.call_data).length) ++
      (beBytes 32 (352 + (tailEnc op.init_code).length + (tailEnc op.call_data).length +
        (tailEnc op.paymaster_and_data).length) ++
      (tailEnc op.init_code ++
      (tailEnc op.call_data ++
      (tailEnc op.paymaster_and_data ++
      (tailEnc op.signature))))))))))))))
      (by simp only [UserOperation.pack, tailEnc, List.append_assoc])
      (beBytes_length 32 _)
    rwa [bytesToNat_beBytes hbSender] at hx
  have hw1 : readWord (UserOperation.pack op) 32 = some (op.nonce) := by
    have hx := readWord_extract (UserOperation.pack op)
      (beBytes 32 op.sender)
      (beBytes 32 op.nonce)
      (beBytes 32 352 ++
      (beBytes 32 (352 + (tailEnc op.init_code).length) ++
      (beBytes 32 op.call_gas_limit ++
      (beBytes 32 op.verification_gas_limit ++
      (beBytes 32 op.pre_verification_gas ++
      (beBytes 32 op.max_fee_per_gas ++
      (beBytes 32 op.max_priority_fee_per_gas ++
      (beBytes 32 (352 + (tailEnc op.init_code).length + (tailEnc op.call_data).length) ++
      (beBytes 32 (352 + (tailEnc op.init_code).length + (tailEnc op.call_data).length +
        (tailEnc op.paymaster_and_data).length) ++
      (tailEnc op.init_code ++
      (tailEnc op.call_data ++
      (tailEnc op.paymaster_and_data ++
      (tailEnc op.signature)))))))))))))
      32
      (by simp only [UserOperation.pack, tailEnc, List.append_assoc])
      (beBytes_length 32 _)
      (by simp only [List.length_append, beBytes_length])
    rwa [bytesToNat_beBytes hbNonce] at hx
  have hw2 : readWord (UserOperation.pack op) 64 = some (352) := by
    have hx := readWord_extract (UserOperation.pack op)
      (beBytes 32 op.sender ++
      (beBytes 32 op.nonce))
      (beBytes 32 352)
      (beBytes 32 (352 + (tailEnc op.init_code).length) ++
      (beBytes 32 op.call_gas_limit ++
      (beBytes 32 op.verification_gas_limit ++
      (beBytes 32 op.pre_verification_gas ++
      (beBytes 32 op.max_fee_per_gas ++
      (beBytes 32 op.max_priority_fee_per_gas ++
      (beBytes 32 (352 + (tailEnc op.init_code).length + (tailEnc op.call_data).length) ++
      (beBytes 32 (352 + (tailEnc op.init_code).length + (tailEnc op.call_data).length +
        (tailEnc op.paymaster_and_data).length) ++
      (tailEnc op.init_code ++
      (tailEnc op.call_data ++
      (tailEnc op.paymaster_and_data ++
      (tailEnc op.signature))))))))))))
      64
      (by simp only [UserOperation.pack, tailEnc, List.append_assoc])
      (beBytes_length 32 _)
      (by simp only [List.length_append, beBytes_length])
    rwa [bytesToNat_beBytes hb352] at hx
  have hw3 : readWord (UserOperation.pack op) 96 = some (352 + (tailEnc op.init_code).length) := by
    have hx := readWord_extract (UserOperation.pack op)
      (beBytes 32 op.sender ++
      (beBytes 32 op.nonce ++
      (beBytes 32 352)))
      (beBytes 32 (352 + (tailEnc op.init_code).length))
      (beBytes 32 op.call_gas_limit ++
      (beBytes 32 op.verification_gas_limit ++
      (beBytes 32 op.pre_verification_gas ++
      (beBytes 32 op.max_fee_per_gas ++
      (beBytes 32 op.max_priority_fee_per_gas ++
      (beBytes 32 (352 + (tailEnc op.init_code).length + (tailEnc op.call_data).length) ++
      (beBytes 32 (352 + (tailEnc op.init_code).length + (tailEnc op.call_data).length +
        (tailEnc op.paymaster_and_data).length) ++
      (tailEnc op.init_code ++
      (tailEnc op.call_data ++
      (tailEnc op.paymaster_and_data ++
      (tailEnc op.signature)))))))))))
      96
      (by simp only [UserOperation.pack, tailEnc, List.append_assoc])
      (beBytes_length 32 _)
      (by simp only [List.length_append, beBytes_length])
    rwa [bytesToNat_beBytes hbOff1] at hx
  have hw4 : readWord (UserOperation.pack op) 128 = some (op.call_gas_limit) := by
    have hx := readWord_extract (UserOperation.pack op)
      (beBytes 32 op.sender ++
      (beBytes 32 op.nonce ++
      (beBytes 32 352 ++
      (beBytes 32 (352 + (tailEnc op.init_code).length)))))
      (beBytes 32 op.call_gas_limit)
      (beBytes 32 op.verification_gas_limit ++
      (beBytes 32 op.pre_verification_gas ++
      (beBytes 32 op.max_fee_per_gas ++
      (beBytes 32 op.max_priority_fee_per_gas ++
      (beBytes 32 (352 + (tailEnc op.init_code).length + (tailEnc op.call_data).length) ++
      (beBytes 32 (352 + (tailEnc op.init_code).length + (tailEnc op.call_data).length +
        (tailEnc op.paymaster_and_data).length) ++
      (tailEnc op.init_code ++
      (tailEnc op.call_data ++
      (tailEnc op.paymaster_and_data ++
      (tailEnc op.signature))))))))))
      128
      (by simp only [UserOperation.pack, tailEnc, List.append_assoc])
      (beBytes_length 32 _)
      (by simp only [List.length_append, beBytes_length])
    rwa [bytesToNat_beBytes hbCgl] at hx
  have hw5 : readWord (UserOperation.pack op) 160 = some (op.verification_gas_limit) := by
    have hx := readWord_extract (UserOperation.pack op)
      (beBytes 32 op.sender ++
      (beBytes 32 op.nonce ++
      (beBytes 32 352 ++
      (beBytes 32 (352 + (tailEnc op.init_code).length) ++
      (beBytes 32 op.call_gas_limit)))))
      (beBytes 32 op.verification_gas_limit)
      (beBytes 32 op.pre_verification_gas ++
      (beBytes 32 op.max_fee_per_gas ++
      (beBytes 32 op.max_priority_fee_per_gas ++
      (beBytes 32 (352 + (tailEnc op.init_code).length + (tailEnc op.call_data).length) ++
      (beBytes 32 (352 + (tailEnc op.init_code).length + (tailEnc op.call_data).length +
        (tailEnc op.paymaster_and_data).length) ++
      (tailEnc op.init_code ++
      (tailEnc op.call_data ++
      (tailEnc op.paymaster_and_data ++
      (tailEnc op.signature)))))))))
      160
      (by simp only [UserOperation.pack, tailEnc, List.append_assoc])
      (beBytes_length 32 _)
      (by simp only [List.length_append, beBytes_length])
    rwa [bytesToNat_beBytes hbVgl] at hx
  have hw6 : readWord (UserOperation.pack op) 192 = some (op.pre_verification_gas) := by
    have hx := readWord_extract (UserOperation.pack op)
      (beBytes 32 op.sender ++
      (beBytes 32 op.nonce ++
      (beBytes 32 352 ++
      (beBytes 32 (352 + (tailEnc op.init_code).length) ++
      (beBytes 32 op.call_gas_limit ++
      (beBytes 32 op.verification_gas_limit))))))
      (beBytes 32 op.pre_verification_gas)
      (beBytes 32 op.max_fee_per_gas ++
      (beBytes 32 op.max_priority_fee_per_gas ++
      (beBytes 32 (352 + (tailEnc op.init_code).length + (tailEnc op.call_data).length) ++
      (beBytes 32 (352 + (tailEnc op.init_code).length + (tailEnc op.call_data).length +
        (tailEnc op.paymaster_and_data).length) ++
      (tailEnc op.init_code ++
      (tailEnc op.call_data ++
      (tailEnc op.paymaster_and_data ++
      (tailEnc op.signature))))))))
      192
      (by simp only [UserOperation.pack, tailEnc, List.append_assoc])
      (beBytes_length 32 _)
      (by simp only [List.length_append, beBytes_length])
    rwa [bytesToNat_beBytes hbPvg] at hx
  have hw7 : readWord (UserOperation.pack op) 224 = some (op.max_fee_per_gas) := by
    have hx := readWord_extract (UserOperation.pack op)
      (beBytes 32 op.sender ++
      (beBytes 32 op.nonce ++
      (beBytes 32 352 ++
      (beBytes 32 (352 + (tailEnc op.init_code).length) ++
      (beBytes 32 op.call_gas_limit ++
      (beBytes 32 op.verification_gas_limit ++
      (beBytes 32 op.pre_verification_gas)))))))
      (beBytes 32 op.max_fee_per_gas)
      (beBytes 32 op.max_priority_fee_per_gas ++
      (beBytes 32 (352 + (tailEnc op.init_code).length + (tailEnc op.call_data).length) ++
      (beBytes 32 (352 + (tailEnc op.init_code).length + (tailEnc op.call_data).length +
        (tailEnc op.paymaster_and_data).length) ++
      (tailEnc op.init_code ++
      (tailEnc op.call_data ++
      (tailEnc op.paymaster_and_data ++
      (tailEnc op.signature)))))))
      224
      (by simp only [UserOperation.pack, tailEnc, List.append_assoc])
      (beBytes_length 32 _)
      (by simp only [List.length_append, beBytes_length])
    rwa [bytesToNat_beBytes hbMf] at hx
  have hw8 : readWord (UserOperation.pack op) 256 = some (op.max_priority_fee_per_gas) := by
    have hx := readWord_extract (UserOperation.pack op)
      (beBytes 32 op.sender ++
      (beBytes 32 op.nonce ++
      (beBytes 32 352 ++
      (beBytes 32 (352 + (tailEnc op.init_code).length) ++
      (beBytes 32 op.call_gas_limit ++
      (beBytes 32 op.verification_gas_limit ++
      (beBytes 32 op.pre_verification_gas ++
      (beBytes 32 op.max_fee_per_gas))))))))
      (beBytes 32 op.max_priority_fee_per_gas)
      (beBytes 32 (352 + (tailEnc op.init_code).length + (tailEnc op.call_data).length) ++
      (beBytes 32 (352 + (tailEnc op.init_code).length + (tailEnc op.call_data).length +
        (tailEnc op.paymaster_and_data).length) ++
      (tailEnc op.init_code ++
      (tailEnc op.call_data ++
      (tailEnc op.paymaster_and_data ++
      (tailEnc op.signature))))))
      256
      (by simp only [UserOperation.pack, tailEnc, List.append_assoc])
      (beBytes_length 32 _)
      (by simp only [List.length_append, beBytes_length])
    rwa [bytesToNat_beBytes hbMpf] at hx
  have hw9 : readWord (UserOperation.pack op) 288 = some (352 + (tailEnc op.init_code).length + (tailEnc op.call_data).length) := by
    have hx := readWord_extract (UserOperation.pack op)
      (beBytes 32 op.sender ++
      (beBytes 32 op.nonce ++
      (beBytes 32 352 ++
      (beBytes 32 (352 + (tailEnc op.init_code).length) ++
      (beBytes 32 op.call_gas_limit ++
      (beBytes 32 op.verification_gas_limit ++
      (beBytes 32 op.pre_verification_gas ++
      (beBytes 32 op.max_fee_per_gas ++
      (beBytes 32 op.max_priority_fee_per_gas)))))))))
      (beBytes 32 (352 + (tailEnc op.init_code).length + (tailEnc op.call_data).length))
      (beBytes 32 (352 + (tailEnc op.init_code).length + (tailEnc op.call_data).length +
        (tailEnc op.paymaster_and_data).length) ++
      (tailEnc op.init_code ++
      (tailEnc op.call_data ++
      (tailEnc op.paymaster_and_data ++
      (tailEnc op.signature)))))
      288
      (by simp only [UserOperation.pack, tailEnc, List.append_assoc])
      (beBytes_length 32 _)
      (by simp only [List.length_append, beBytes_length])
    rwa [bytesToNat_beBytes hbOff2] at hx
  have hw10 : readWord (UserOperation.pack op) 320 = some (352 + (tailEnc op.init_code).length + (tailEnc op.call_data).length +
      (tailEnc op.paymaster_and_data).length) := by
    have hx := readWord_extract (UserOperation.pack op)
      (beBytes 32 op.sender ++
      (beBytes 32 op.nonce ++
      (beBytes 32 352 ++
      (beBytes 32 (352 + (tailEnc op.init_code).length) ++
      (beBytes 32 op.call_gas_limit ++
      (beBytes 32 op.verification_gas_limit ++
      (beBytes 32 op.pre_verification_gas ++
      (beBytes 32 op.max_fee_per_gas ++
      (beBytes 32 op.max_priority_fee_per_gas ++
      (beBytes 32 (352 + (tailEnc op.init_code).length + (tailEnc op.call_data).length)))))))))))
      (beBytes 32 (352 + (tailEnc op.init_code).length + (tailEnc op.call_data).length +
        (tailEnc op.paymaster_and_data).length))
      (tailEnc op.init_code ++
      (tailEnc op.call_data ++
      (tailEnc op.paymaster_and_data ++
      (tailEnc op.signature))))
      320
      (by simp only [UserOperation.pack, tailEnc, List.append_assoc])
      (beBytes_length 32 _)
      (by simp only [List.length_append, beBytes_length])
    rwa [bytesToNat_beBytes hbOff3] at hx
  have hr_init_code : readBytes (UserOperation.pack op) 64 = some op.init_code := by
    exact readBytes_extract (UserOperation.pack op)
      (beBytes 32 op.sender ++
      (beBytes 32 op.nonce ++
      (beBytes 32 352 ++
      (beBytes 32 (352 + (tailEnc op.init_code).length) ++
      (beBytes 32 op.call_gas_limit ++
      (beBytes 32 op.verification_gas_limit ++
      (beBytes 32 op.pre_verification_gas ++
      (beBytes 32 op.max_fee_per_gas ++
      (beBytes 32 op.max_priority_fee_per_gas ++
      (beBytes 32 (352 + (tailEnc op.init_code).length + (tailEnc op.call_data).length) ++
      (beBytes 32 (352 + (tailEnc op.init_code).length + (tailEnc op.call_data).length +
        (tailEnc op.paymaster_and_data).length))))))))))))
      op.init_code
      (List.replicate ((32 - op.init_code.length % 32) % 32) 0 ++
      (tailEnc op.call_data ++
      (tailEnc op.paymaster_and_data ++
      (tailEnc op.signature))))
      64
      (352)
      hw2
      (by simp only [UserOperation.pack, tailEnc, List.append_assoc])
      (by simp only [List.length_append, beBytes_length])
      hbIc
  have hr_call_data : readBytes (UserOperation.pack op) 96 = some op.call_data := by
    exact readBytes_extract (UserOperation.pack op)
      (beBytes 32 op.sender ++
      (beBytes 32 op.nonce ++
      (beBytes 32 352 ++
      (beBytes 32 (352 + (tailEnc op.init_code).length) ++
      (beBytes 32 op.call_gas_limit ++
      (beBytes 32 op.verification_gas_limit ++
      (beBytes 32 op.pre_verification_gas ++
      (beBytes 32 op.max_fee_per_gas ++
      (beBytes 32 op.max_priority_fee_per_gas ++
      (beBytes 32 (352 + (tailEnc op.init_code).length + (tailEnc op.call_data).length) ++
      (beBytes 32 (352 + (tailEnc op.init_code).length + (tailEnc op.call_data).length +
        (tailEnc op.paymaster_and_data).length) ++
      (tailEnc op.init_code))))))))))))
      op.call_data
      (List.replicate ((32 - op.call_data.length % 32) % 32) 0 ++
      (tailEnc op.paymaster_and_data ++
      (tailEnc op.signature)))
      96
      (352 + (tailEnc op.init_code).length)
      hw3
      (by simp only [UserOperation.pack, tailEnc, List.append_assoc])
      (by simp only [List.length_append, beBytes_length]; omega)
      hbCd
  have hr_paymaster_and_data : readBytes (UserOperation.pack op) 288 = some op.paymaster_and_data := by
    exact readBytes_extract (UserOperation.pack op)
      (beBytes 32 op.sender ++
      (beBytes 32 op.nonce ++
      (beBytes 32 352 ++
      (beBytes 32 (352 + (tailEnc op.init_code).length) ++
      (beBytes 32 op.call_gas_limit ++
      (beBytes 32 op.verification_gas_limit ++
      (beBytes 32 op.pre_verification_gas ++
      (beBytes 32 op.max_fee_per_gas ++
      (beBytes 32 op.max_priority_fee_per_gas ++
      (beBytes 32 (352 + (tailEnc op.init_code).length + (tailEnc op.call_data).length) ++
      (beBytes 32 (352 + (tailEnc op.init_code).length + (tailEnc op.call_data).length +
        (tailEnc op.paymaster_and_data).length) ++
      (tailEnc op.init_code ++
      (tailEnc op.call_data)))))))))))))
      op.paymaster_and_data
      (List.replicate ((32 - op.paymaster_and_data.length % 32) % 32) 0 ++
      (tailEnc op.signature))
      288
      (352 + (tailEnc op.init_code).length + (tailEnc op.call_data).length)
      hw9
      (by simp only [UserOperation.pack, tailEnc, List.append_assoc])
      (by simp only [List.length_append, beBytes_length]; omega)
      hbPmd
  have hr_signature : readBytes (UserOperation.pack op) 320 = some op.signature := by
    exact readBytes_extract (UserOperation.pack op)
      (beBytes 32 op.sender ++
      (beBytes 32 op.nonce ++
      (beBytes 32 352 ++
      (beBytes 32 (352 + (tailEnc op.init_code).length) ++
      (beBytes 32 op.call_gas_limit ++
      (beBytes 32 op.verification_gas_limit ++
      (beBytes 32 op.pre_verification_gas ++
      (beBytes 32 op.max_fee_per_gas ++
      (beBytes 32 op.max_priority_fee_per_gas ++
      (beBytes 32 (352 + (tailEnc op.init_code).length + (tailEnc op.call_data).length) ++
      (beBytes 32 (352 + (tailEnc op.init_code).length + (tailEnc op.call_data).length +
        (tailEnc op.paymaster_and_data).length) ++
      (tailEnc op.init_code ++
      (tailEnc op.call_data ++
      (tailEnc op.paymaster_and_data))))))))))))))
      op.signature
      (List.replicate ((32 - op.signature.length % 32) % 32) 0)
      320
      (352 + (tailEnc op.init_code).length + (tailEnc op.call_data).length +
      (tailEnc op.paymaster_and_data).length)
      hw10
      (by simp only [UserOperation.pack, tailEnc, List.append_assoc])
      (by simp only [List.length_append, beBytes_length]; omega)
      hbSig
  simp only [UserOperation.decode, hw0, hw1, hw4, hw5, hw6, hw7, hw8, hr_init_code,
    hr_call_data, hr_paymaster_and_data, hr_signature]
  rw [Nat.mod_eq_of_lt hs]



/-- The packed encoding always contains at least its 352-byte head. -/
theorem pack_length_ge (op : UserOperation) : 32 ≤ (UserOperation.pack op).length := by
  simp only [UserOperation.pack, List.length_append, beBytes_length]
  omega

/-- Anchor: `pack` of the first fixture operation equals, byte for byte,
the literal recorded in the repository's `user_operation_pack` test. -/
theorem pack_testOp0_vector :
    UserOperation.pack testOp0 =
      beBytes 32 0 ++
      beBytes 32 0 ++
      beBytes 32 0x160 ++
      beBytes 32 0x180 ++
      beBytes 32 0 ++
      beBytes 32 0x186a0 ++
      beBytes 32 0x5208 ++
      beBytes 32 0 ++
      beBytes 32 0x3b9aca00 ++
      beBytes 32 0x1a0 ++
      beBytes 32 0x1c0 ++
      beBytes 32 0 ++
      beBytes 32 0 ++
      beBytes 32 0 ++
      beBytes 32 0 := by
  decide

/-- Anchor: `pack` of the second fixture operation equals the test literal:
fifteen head and empty-tail words, then the 65 signature bytes padded with
31 zero bytes. -/
theorem pack_testOp1_vector :
    UserOperation.pack testOp1 =
      beBytes 32 0x663f3ad617193148711d28f5334ee4ed07016602 ++
      beBytes 32 0 ++
      beBytes 32 0x160 ++
      beBytes 32 0x180 ++
      beBytes 32 0x30d40 ++
      beBytes 32 0x186a0 ++
      beBytes 32 0x5208 ++
      beBytes 32 0xb2d05e00 ++
      beBytes 32 0x3b9aca00 ++
      beBytes 32 0x1a0 ++
      beBytes 32 0x1c0 ++
      beBytes 32 0 ++
      beBytes 32 0 ++
      beBytes 32 0 ++
      beBytes 32 0x41 ++
      (testSignature ++ List.replicate 31 0) := by
  decide

/-! ### Claim theorems -/

/-- C1: for every operation, verifier address and chain id, `hash` is the
outer keccak256 of the inner keccak256 of `pack_for_signature` followed by
the 32-byte encodings of the verifier address and the chain id; and it is
not the single-pass hash of the three components (witnessed on the first
fixture operation). -/
theorem hash_is_double_keccak :
    (∀ (op : UserOperation) (a c : Nat),
      UserOperation.hash op a c =
        keccak256 (keccak256 (UserOperation.pack_for_signature op) ++
          (beBytes 32 a ++ beBytes 32 c))) ∧
    UserOperation.hash testOp0 testEntryPoint 1 ≠
      keccak256 (UserOperation.pack_for_signature testOp0 ++
        (beBytes 32 testEntryPoint ++ beBytes 32 1)) := by
  constructor
  · intro op a c
    simp [UserOperation.hash, List.flatten]
  · rw [hash_testOp0, keccakDigest_sp]
    decide

/-- C2: `pack_for_signature` does not depend on the `signature` field: two
operations that agree on every other field produce the same output. -/
theorem pack_for_signature_signature_independent (op1 op2 : UserOperation)
    (h_sender : op1.sender = op2.sender) (h_nonce : op1.nonce = op2.nonce)
    (h_init_code : op1.init_code = op2.init_code)
    (h_call_data : op1.call_data = op2.call_data)
    (h_call_gas_limit : op1.call_gas_limit = op2.call_gas_limit)
    (h_verification_gas_limit : op1.verification_gas_limit = op2.verification_gas_limit)
    (h_pre_verification_gas : op1.pre_verification_gas = op2.pre_verification_gas)
    (h_max_fee_per_gas : op1.max_fee_per_gas = op2.max_fee_per_gas)
    (h_max_priority_fee_per_gas : op1.max_priority_fee_per_gas = op2.max_priority_fee_per_gas)
    (h_paymaster_and_data : op1.paymaster_and_data = op2.paymaster_and_data) :
    UserOperation.pack_for_signature op1 = UserOperation.pack_for_signature op2 := by
  have h : ({ op1 with signature := [] } : UserOperation) =
      { op2 with signature := ([] : List Nat) } := by
    cases op1
    cases op2
    simp_all
  simp only [UserOperation.pack_for_signature, h]

/-- Witness for C2: changing only the signature of the first fixture
operation leaves `pack_for_signature` unchanged. -/
theorem pack_for_signature_signature_independent_witness :
    UserOperation.pack_for_signature testOp0 =
      UserOperation.pack_for_signature { testOp0 with signature := [1, 2, 3] } :=
  pack_for_signature_signature_independent testOp0
    { testOp0 with signature := [1, 2, 3] } rfl rfl rfl rfl rfl rfl rfl rfl rfl rfl

/-- C3: the ABI tuple encoding round-trips: decoding `pack op` yields `op`
again for every valid operation. -/
theorem unpack_pack (op : UserOperation) (h : ValidOp op) :
    UserOperation.decode (UserOperation.pack op) = some op :=
  decode_pack op h

/-- Witness for C3 at the first fixture operation. -/
theorem unpack_pack_witness :
    ValidOp testOp0 ∧ UserOperation.decode (UserOperation.pack testOp0) = some testOp0 :=
  ⟨by decide, unpack_pack testOp0 (by decide)⟩

/-- C4: the VerificationGas check fails with `HighVerificationGasLimit`
(carrying the declared limit and the ceiling) exactly when the declared
verification gas exceeds the ceiling — so that error wins when both bounds
are violated; otherwise it fails with `LowPreVerificationGas` (carrying the
declared and expected values) exactly when the declared pre-verification
gas is below the calculator result; otherwise it succeeds. -/
theorem verification_gas_check_spec (tbl : Overhead) (max_verification_gas : Nat)
    (uo : UserOperation) :
    (VerificationGas.check_user_operation tbl max_verification_gas uo =
        Except.error (SanityCheckError.HighVerificationGasLimit
          uo.verification_gas_limit max_verification_gas) ↔
      uo.verification_gas_limit > max_verification_gas) ∧
    (uo.verification_gas_limit ≤ max_verification_gas →
      (VerificationGas.check_user_operation tbl max_verification_gas uo =
          Except.error (SanityCheckError.LowPreVerificationGas
            uo.pre_verification_gas (tbl.calculate_pre_verification_gas uo)) ↔
        uo.pre_verification_gas < tbl.calculate_pre_verification_gas uo)) ∧
    (uo.verification_gas_limit ≤ max_verification_gas →
      tbl.calculate_pre_verification_gas uo ≤ uo.pre_verification_gas →
      VerificationGas.check_user_operation tbl max_verification_gas uo =
        Except.ok ()) := by
  by_cases h1 : uo.verification_gas_limit > max_verification_gas <;>
    by_cases h2 : uo.pre_verification_gas < tbl.calculate_pre_verification_gas uo <;>
    simp [VerificationGas.check_user_operation, h1, h2]

/-- Witness for C4: the fixture operation passes a generous configuration,
trips the verification-gas ceiling when the ceiling is lowered, and trips
the pre-verification-gas floor when the cost table demands more. -/
theorem verification_gas_check_spec_witness :
    VerificationGas.check_user_operation ⟨21000, 0, 0⟩ 200000 testOp0 =
      Except.ok () ∧
    VerificationGas.check_user_operation ⟨21000, 0, 0⟩ 99999 testOp0 =
      Except.error (SanityCheckError.HighVerificationGasLimit 100000 99999) ∧
    VerificationGas.check_user_operation ⟨21001, 0, 0⟩ 200000 testOp0 =
      Except.error (SanityCheckError.LowPreVerificationGas 21000 21001) :=
  ⟨(verification_gas_check_spec ⟨21000, 0, 0⟩ 200000 testOp0).2.2 (by decide) (by decide),
   ((verification_gas_check_spec ⟨21000, 0, 0⟩ 99999 testOp0).1).mpr (by decide),
   ((verification_gas_check_spec ⟨21001, 0, 0⟩ 200000 testOp0).2.1 (by decide)).mpr
     (by decide)⟩

/-- C5: the two fixture operations hash to exactly the identifiers recorded
in the repository's `user_operation_hash` test. -/
theorem hash_fixture_vectors :
    UserOperation.hash testOp0 testEntryPoint 1 =
      beBytes 32 0x42e145138104ec4124367ea3f7994833071b2011927290f6844d593e05011279 ∧
    UserOperation.hash testOp1 testEntryPoint 1 =
      beBytes 32 0x583c8fcba470fd9da514f9482ccd31c299b0161a36b365aab353a6bfebaa0bb2 :=
  ⟨hash_testOp0, hash_testOp1⟩

/-- C6: conversion from a draft operation substitutes the fixed default for
every absent optional field: empty bytes, zero for the numeric fields,
10,000,000 for the verification gas limit and a 65-byte all-ones dummy
signature. -/
theorem fromPartial_defaults (p : UserOperationPartial) :
    (p.init_code = none → (UserOperation.fromPartial p).init_code = []) ∧
    (p.call_data = none → (UserOperation.fromPartial p).call_data = []) ∧
    (p.paymaster_and_data = none → (UserOperation.fromPartial p).paymaster_and_data = []) ∧
    (p.call_gas_limit = none → (UserOperation.fromPartial p).call_gas_limit = 0) ∧
    (p.pre_verification_gas = none → (UserOperation.fromPartial p).pre_verification_gas = 0) ∧
    (p.max_fee_per_gas = none → (UserOperation.fromPartial p).max_fee_per_gas = 0) ∧
    (p.max_priority_fee_per_gas = none →
      (UserOperation.fromPartial p).max_priority_fee_per_gas = 0) ∧
    (p.verification_gas_limit = none →
      (UserOperation.fromPartial p).verification_gas_limit = 10000000) ∧
    (p.signature = none → (UserOperation.fromPartial p).signature = List.replicate 65 1) := by
  refine ⟨?_, ?_, ?_, ?_, ?_, ?_, ?_, ?_, ?_⟩ <;>
    intro h <;> simp [UserOperation.fromPartial, h]

/-- Witness for C6: the all-absent draft receives every default. -/
theorem fromPartial_defaults_witness :
    (UserOperation.fromPartial testPartialNone).init_code = [] ∧
    (UserOperation.fromPartial testPartialNone).call_data = [] ∧
    (UserOperation.fromPartial testPartialNone).paymaster_and_data = [] ∧
    (UserOperation.fromPartial testPartialNone).call_gas_limit = 0 ∧
    (UserOperation.fromPartial testPartialNone).pre_verification_gas = 0 ∧
    (UserOperation.fromPartial testPartialNone).max_fee_per_gas = 0 ∧
    (UserOperation.fromPartial testPartialNone).max_priority_fee_per_gas = 0 ∧
    (UserOperation.fromPartial testPartialNone).verification_gas_limit = 10000000 ∧
    (UserOperation.fromPartial testPartialNone).signature = List.replicate 65 1 :=
  ⟨(fromPartial_defaults testPartialNone).1 rfl,
   (fromPartial_defaults testPartialNone).2.1 rfl,
   (fromPartial_defaults testPartialNone).2.2.1 rfl,
   (fromPartial_defaults testPartialNone).2.2.2.1 rfl,
   (fromPartial_defaults testPartialNone).2.2.2.2.1 rfl,
   (fromPartial_defaults testPartialNone).2.2.2.2.2.1 rfl,
   (fromPartial_defaults testPartialNone).2.2.2.2.2.2.1 rfl,
   (fromPartial_defaults testPartialNone).2.2.2.2.2.2.2.1 rfl,
   (fromPartial_defaults testPartialNone).2.2.2.2.2.2.2.2 rfl⟩

/-- C7: the batch decoder returns the embedded operations, in order, exactly
on a decoded `HandleOps` call, and an absent result — never an error — on
any other decodable call or on undecodable bytes. -/
theorem parse_from_input_data_spec
    (decode : List Nat → Option EntryPointAPICalls) (data : List Nat) :
    (∀ ops beneficiary,
      decode data = some (EntryPointAPICalls.HandleOps ops beneficiary) →
      parse_from_input_data decode data =
        some (ops.map EPUserOperation.toUserOperation)) ∧
    (decode data = some EntryPointAPICalls.OtherCall →
      parse_from_input_data decode data = none) ∧
    (decode data = none → parse_from_input_data decode data = none) := by
  refine ⟨fun ops beneficiary h => ?_, fun h => ?_, fun h => ?_⟩ <;>
    simp [parse_from_input_data, h]

/-- Witness for C7: a decoder yielding a `HandleOps` call, one yielding
another call, and one that fails. -/
theorem parse_from_input_data_spec_witness :
    parse_from_input_data
        (fun _ => some (EntryPointAPICalls.HandleOps [testEPOp] 9)) [] =
      some [EPUserOperation.toUserOperation testEPOp] ∧
    parse_from_input_data (fun _ => some EntryPointAPICalls.OtherCall) [] = none ∧
    parse_from_input_data (fun _ => none) [] = none :=
  ⟨(parse_from_input_data_spec
      (fun _ => some (EntryPointAPICalls.HandleOps [testEPOp] 9)) []).1 [testEPOp] 9 rfl,
   (parse_from_input_data_spec (fun _ => some EntryPointAPICalls.OtherCall) []).2.1 rfl,
   (parse_from_input_data_spec (fun _ => none) []).2.2 rfl⟩

/-- C8: the signature-stripped encoding is always at least 32 bytes (its
head alone is 352 bytes), so the 32-byte truncation in
`pack_for_signature` cannot underflow and the function is total. -/
theorem pack_for_signature_no_underflow (op : UserOperation) :
    32 ≤ (UserOperation.pack { op with signature := [] }).length ∧
    (UserOperation.pack_for_signature op).length + 32 =
      (UserOperation.pack { op with signature := [] }).length := by
  have h := pack_length_ge { op with signature := ([] : List Nat) }
  refine ⟨h, ?_⟩
  simp only [UserOperation.pack_for_signature, List.length_take]
  omega

/-- C9: the database serialisation round-trips — `decompress (compress op)`
recovers `op` — and `compress` is exactly the canonical `pack`. -/
theorem decompress_compress (op : UserOperation) (h : ValidOp op) :
    UserOperation.decompress (UserOperation.compress op) = Except.ok op ∧
    UserOperation.compress op = UserOperation.pack op := by
  refine ⟨?_, rfl⟩
  simp [UserOperation.decompress, UserOperation.compress, decode_pack op h]

/-- Witness for C9 at the second fixture operation. -/
theorem decompress_compress_witness :
    ValidOp testOp1 ∧
    (UserOperation.decompress (UserOperation.compress testOp1) = Except.ok testOp1 ∧
      UserOperation.compress testOp1 = UserOperation.pack testOp1) :=
  ⟨by decide, decompress_compress testOp1 (by decide)⟩

/-- C10: conversion from a draft operation is the identity on present data:
sender and nonce are copied, and every supplied optional value is carried
over unchanged. -/
theorem fromPartial_identity (p : UserOperationPartial) :
    (UserOperation.fromPartial p).sender = p.sender ∧
    (UserOperation.fromPartial p).nonce = p.nonce ∧
    (∀ v, p.init_code = some v → (UserOperation.fromPartial p).init_code = v) ∧
    (∀ v, p.call_data = some v → (UserOperation.fromPartial p).call_data = v) ∧
    (∀ v, p.call_gas_limit = some v → (UserOperation.fromPartial p).call_gas_limit = v) ∧
    (∀ v, p.verification_gas_limit = some v →
      (UserOperation.fromPartial p).verification_gas_limit = v) ∧
    (∀ v, p.pre_verification_gas = some v →
      (UserOperation.fromPartial p).pre_verification_gas = v) ∧
    (∀ v, p.max_fee_per_gas = some v → (UserOperation.fromPartial p).max_fee_per_gas = v) ∧
    (∀ v, p.max_priority_fee_per_gas = some v →
      (UserOperation.fromPartial p).max_priority_fee_per_gas = v) ∧
    (∀ v, p.paymaster_and_data = some v →
      (UserOperation.fromPartial p).paymaster_and_data = v) ∧
    (∀ v, p.signature = some v → (UserOperation.fromPartial p).signature = v) := by
  refine ⟨rfl, rfl, ?_, ?_, ?_, ?_, ?_, ?_, ?_, ?_, ?_⟩ <;>
    intro v h <;> simp [UserOperation.fromPartial, h]

/-- Witness for C10: the all-present draft is copied field for field. -/
theorem fromPartial_identity_witness :
    (UserOperation.fromPartial testPartialSome).sender = 5 ∧
    (UserOperation.fromPartial testPartialSome).init_code = [1] ∧
    (UserOperation.fromPartial testPartialSome).verification_gas_limit = 12 ∧
    (UserOperation.fromPartial testPartialSome).signature = [5, 6] :=
  ⟨(fromPartial_identity testPartialSome).1,
   (fromPartial_identity testPartialSome).2.2.1 [1] rfl,
   (fromPartial_identity testPartialSome).2.2.2.2.2.1 12 rfl,
   (fromPartial_identity testPartialSome).2.2.2.2.2.2.2.2.2.2 [5, 6] rfl⟩


end AABundler
